import Mathlib

/-!
# Formal model of the HK rent-vs-buy simulator

Shallow embedding of `simulate_rent_vs_buy` from `src/main-new.py`
(the canonical month-by-month simulation engine of the repository).
Python float arithmetic is modelled by exact real arithmetic; the
`numpy_financial.pmt` annuity payment (with its zero-rate straight-line
fallback) is embedded as `npf_pmt`.  The monthly loop is the `step`
function iterated `horizon_years * 12` times (an empty loop when that
count is non-positive, matching `range(0, months)`).
-/

noncomputable section

namespace RentVsBuy

/-- The keyword parameters of `simulate_rent_vs_buy` (src/main-new.py, lines 30-46).
Year counts are integers as in the source; every monetary/rate field is a real. -/
structure SimParams where
  house_size_sqft : ℝ
  house_price_per_sqft : ℝ
  monthly_rent_per_sqft : ℝ
  down_payment_pct : ℝ
  mortgage_rate_annual : ℝ
  mortgage_years : ℤ
  investment_return_annual : ℝ
  house_appreciation_annual : ℝ
  rent_increase_annual : ℝ
  gov_rate_pct_of_rent_annual : ℝ
  mgmt_fee_pct_of_value_annual : ℝ
  buy_closing_cost_pct : ℝ
  sell_closing_cost_pct : ℝ
  horizon_years : ℤ
  invest_monthly_diffs : Bool

/-- `numpy_financial.pmt rate nper pv` with `fv = 0`, `when = 'end'`:
`-(pv * (1+rate)^nper) / fact` where `fact = nper` if `rate == 0`
and `(temp - 1)/rate` otherwise (so `temp` cancels in the zero branch). -/
def npf_pmt (rate : ℝ) (nper : ℤ) (pv : ℝ) : ℝ :=
  if rate = 0 then -(pv / (nper : ℝ))
  else -(pv * (1 + rate) ^ nper * rate / ((1 + rate) ^ nper - 1))

/-- `months = horizon_years * 12` (line 60). -/
def months (p : SimParams) : ℤ := p.horizon_years * 12

/-- `house_price = house_size_sqft * house_price_per_sqft` (line 63). -/
def house_price (p : SimParams) : ℝ := p.house_size_sqft * p.house_price_per_sqft

/-- `monthly_rent = house_size_sqft * monthly_rent_per_sqft` (line 64). -/
def monthly_rent (p : SimParams) : ℝ := p.house_size_sqft * p.monthly_rent_per_sqft

/-- `down_payment = house_price * down_payment_pct` (line 65). -/
def down_payment (p : SimParams) : ℝ := house_price p * p.down_payment_pct

/-- `loan_principal = house_price - down_payment` (line 66). -/
def loan_principal (p : SimParams) : ℝ := house_price p - down_payment p

/-- `r_m = (1 + mortgage_rate_annual) ** (1/12) - 1` (line 67). -/
def r_m (p : SimParams) : ℝ := (1 + p.mortgage_rate_annual) ^ ((1 : ℝ) / 12) - 1

/-- `n_m = mortgage_years * 12` (line 68). -/
def n_m (p : SimParams) : ℤ := p.mortgage_years * 12

/-- `mort_payment = -npf.pmt(r_m, n_m, loan_principal)` (line 71). -/
def mort_payment (p : SimParams) : ℝ := -(npf_pmt (r_m p) (n_m p) (loan_principal p))

/-- `f_house = (1 + house_appreciation_annual) ** (1/12)` (line 74). -/
def f_house (p : SimParams) : ℝ := (1 + p.house_appreciation_annual) ^ ((1 : ℝ) / 12)

/-- `f_rent = (1 + rent_increase_annual) ** (1/12)` (line 75). -/
def f_rent (p : SimParams) : ℝ := (1 + p.rent_increase_annual) ^ ((1 : ℝ) / 12)

/-- `f_inv = (1 + investment_return_annual) ** (1/12) - 1` (line 76). -/
def f_inv (p : SimParams) : ℝ := (1 + p.investment_return_annual) ^ ((1 : ℝ) / 12) - 1

/-- `buy_closing_cost = house_price * buy_closing_cost_pct` (line 79). -/
def buy_closing_cost (p : SimParams) : ℝ := house_price p * p.buy_closing_cost_pct

/-- The mutable loop state of lines 82-95: property value, market rent,
remaining mortgage balance, the two side-investment balances and the
two diagnostic cash-out accumulators. -/
structure LoopState where
  property_value : ℝ
  market_rent : ℝ
  remaining_balance : ℝ
  owner_side_invest : ℝ
  renter_invest : ℝ
  total_owner_cash_out : ℝ
  total_renter_cash_out : ℝ

/-- `mgmt_fee = property_value * mgmt_fee_pct_of_value_annual / 12.0` (line 104). -/
def mgmt_fee (p : SimParams) (s : LoopState) : ℝ :=
  s.property_value * p.mgmt_fee_pct_of_value_annual / 12

/-- `gov_rates = market_rent * gov_rate_pct_of_rent_annual` (line 105) - note: no `/ 12`. -/
def gov_rates (p : SimParams) (s : LoopState) : ℝ :=
  s.market_rent * p.gov_rate_pct_of_rent_annual

/-- `owner_monthly_cost = mort_payment + mgmt_fee + gov_rates` (line 107). -/
def owner_monthly_cost (p : SimParams) (s : LoopState) : ℝ :=
  mort_payment p + mgmt_fee p s + gov_rates p s

/-- One iteration of the `for m in range(0, months)` body (lines 97-131). -/
def step (p : SimParams) (s : LoopState) : LoopState :=
  let interest := s.remaining_balance * r_m p
  let principal := max (mort_payment p - interest) 0
  let remaining_balance := max (s.remaining_balance - principal) 0
  let renter_monthly_cost := s.market_rent
  let owner_side1 := s.owner_side_invest * (1 + f_inv p)
  let renter1 := s.renter_invest * (1 + f_inv p)
  let diff := owner_monthly_cost p s - renter_monthly_cost
  let owner_side2 := if p.invest_monthly_diffs ∧ ¬ diff > 0 then owner_side1 + -diff else owner_side1
  let renter2 := if p.invest_monthly_diffs ∧ diff > 0 then renter1 + diff else renter1
  { property_value := s.property_value * f_house p
    market_rent := s.market_rent * f_rent p
    remaining_balance := remaining_balance
    owner_side_invest := owner_side2
    renter_invest := renter2
    total_owner_cash_out := s.total_owner_cash_out + owner_monthly_cost p s
    total_renter_cash_out := s.total_renter_cash_out + renter_monthly_cost }

/-- The state just before the loop (lines 82-95): balance = loan principal,
property at purchase price, rent at initial market rent, the renter side
seeded with the avoided upfront cash, the owner cash-out accumulator
starting at that same upfront cash. -/
def initState (p : SimParams) : LoopState :=
  { property_value := house_price p
    market_rent := monthly_rent p
    remaining_balance := loan_principal p
    owner_side_invest := 0
    renter_invest := down_payment p + buy_closing_cost p
    total_owner_cash_out := down_payment p + buy_closing_cost p
    total_renter_cash_out := 0 }

/-- The loop state after `k` iterations of the body. -/
def loopIter (p : SimParams) : ℕ → LoopState
  | 0 => initState p
  | k + 1 => step p (loopIter p k)

/-- The state at loop exit: `range(0, months)` executes `max(months, 0)` iterations. -/
def finalState (p : SimParams) : LoopState := loopIter p (months p).toNat

/-- The returned record (lines 143-176): the relevant echoed derived params,
the comparison outputs, and the `details` diagnostics. -/
structure SimulationResult where
  house_price : ℝ
  monthly_rent : ℝ
  months : ℤ
  buy_net_worth : ℝ
  rent_net_worth : ℝ
  net_advantage_buy : ℝ
  remaining_mortgage_balance : ℝ
  property_value_end : ℝ
  monthly_rent_end : ℝ
  sale_closing_cost : ℝ
  owner_equity_realized : ℝ
  owner_side_invest_end : ℝ
  renter_invest_end : ℝ
  total_owner_cash_out : ℝ
  total_renter_cash_out : ℝ
  monthly_mortgage_payment : ℝ

/-- `simulate_rent_vs_buy`: normalizer, loop, then horizon settlement
(lines 133-176): sale at final property value, sell-side closing cost,
equity floored at 0, buy net worth = equity + owner side balance,
rent net worth = renter balance. -/
def simulate_rent_vs_buy (p : SimParams) : SimulationResult :=
  let fin := finalState p
  let sale_proceeds_before_costs := fin.property_value
  let sell_closing_cost := sale_proceeds_before_costs * p.sell_closing_cost_pct
  let owner_equity_realized :=
    max (sale_proceeds_before_costs - sell_closing_cost - fin.remaining_balance) 0
  let buy_net_worth := owner_equity_realized + fin.owner_side_invest
  let rent_net_worth := fin.renter_invest
  { house_price := house_price p
    monthly_rent := monthly_rent p
    months := months p
    buy_net_worth := buy_net_worth
    rent_net_worth := rent_net_worth
    net_advantage_buy := buy_net_worth - rent_net_worth
    remaining_mortgage_balance := fin.remaining_balance
    property_value_end := fin.property_value
    monthly_rent_end := fin.market_rent
    sale_closing_cost := sell_closing_cost
    owner_equity_realized := owner_equity_realized
    owner_side_invest_end := fin.owner_side_invest
    renter_invest_end := fin.renter_invest
    total_owner_cash_out := fin.total_owner_cash_out
    total_renter_cash_out := fin.total_renter_cash_out
    monthly_mortgage_payment := mort_payment p }

/-- Modelled from the spec: the validity condition the specification says the
simulator enforces before running ("rejects non-positive size, price, or
horizon"; "any non-positive size/price/horizon/term, or a negative rate that
would make monthly factors complex/undefined").  `src/main-new.py` contains no
such check; this definition exists only to compare the spec's words with the code. -/
def specValidParams (p : SimParams) : Prop :=
  0 < p.house_size_sqft ∧ 0 < p.house_price_per_sqft ∧ 0 < p.monthly_rent_per_sqft ∧
  0 < p.horizon_years ∧ 0 < p.mortgage_years ∧
  -1 ≤ p.mortgage_rate_annual ∧ -1 ≤ p.investment_return_annual ∧
  -1 ≤ p.house_appreciation_annual ∧ -1 ≤ p.rent_increase_annual

/-- The reference scenario of the spec's end-to-end test (also the defaults of
`simulate_rent_vs_buy`): size 500, price/area 20000, rent/area 50, 30% down,
3.5% mortgage over 30 years, 7% investment return, 1% appreciation, 2% rent
inflation, 5% levy, 0.15% management fee, 5%/1% closing costs, 30-year horizon,
differential investing on. -/
def pRef : SimParams :=
  { house_size_sqft := 500
    house_price_per_sqft := 20000
    monthly_rent_per_sqft := 50
    down_payment_pct := 0.30
    mortgage_rate_annual := 0.035
    mortgage_years := 30
    investment_return_annual := 0.07
    house_appreciation_annual := 0.01
    rent_increase_annual := 0.02
    gov_rate_pct_of_rent_annual := 0.05
    mgmt_fee_pct_of_value_annual := 0.0015
    buy_closing_cost_pct := 0.05
    sell_closing_cost_pct := 0.01
    horizon_years := 30
    invest_monthly_diffs := true }

/-- A degenerate variant of the reference scenario with a zero horizon -
a parameter set the spec calls invalid (non-positive horizon). -/
def pC8bad : SimParams :=
  { pRef with horizon_years := 0 }

/-- A small flat-market scenario: no growth rates, no fees, 30% down,
zero mortgage rate, 1-year term and horizon, differential investing off. -/
def pFlat : SimParams :=
  { house_size_sqft := 1
    house_price_per_sqft := 100
    monthly_rent_per_sqft := 10
    down_payment_pct := 0.30
    mortgage_rate_annual := 0
    mortgage_years := 1
    investment_return_annual := 0
    house_appreciation_annual := 0
    rent_increase_annual := 0
    gov_rate_pct_of_rent_annual := 0
    mgmt_fee_pct_of_value_annual := 0
    buy_closing_cost_pct := 0
    sell_closing_cost_pct := 0
    horizon_years := 1
    invest_monthly_diffs := false }

/-- The flat-market scenario with differential investing enabled. -/
def pFlatDiff : SimParams :=
  { pFlat with invest_monthly_diffs := true }

/-- The flat-market scenario with a down-payment fraction of 2 (200%),
making the loan principal negative. -/
def pC2bad : SimParams :=
  { pFlat with down_payment_pct := 2 }

/-- The flat-market scenario with a 100% down payment and differential
investing enabled (the owner side then accumulates the rent differential). -/
def pC9bad : SimParams :=
  { pFlat with down_payment_pct := 1, invest_monthly_diffs := true }

/-- The flat-market scenario with a 100% down payment and differential
investing disabled. -/
def pC9w : SimParams :=
  { pFlat with down_payment_pct := 1 }

/-- An arbitrary concrete mid-simulation loop state used to instantiate
universally quantified step lemmas. -/
def sProbe : LoopState :=
  { property_value := 100
    market_rent := 10
    remaining_balance := 70
    owner_side_invest := 1
    renter_invest := 2
    total_owner_cash_out := 3
    total_renter_cash_out := 4 }

theorem step_property_value (p : SimParams) (s : LoopState) :
    (step p s).property_value = s.property_value * f_house p := rfl

theorem step_market_rent (p : SimParams) (s : LoopState) :
    (step p s).market_rent = s.market_rent * f_rent p := rfl

theorem step_remaining_balance (p : SimParams) (s : LoopState) :
    (step p s).remaining_balance =
      max (s.remaining_balance - max (mort_payment p - s.remaining_balance * r_m p) 0) 0 := rfl

theorem step_total_owner_cash_out (p : SimParams) (s : LoopState) :
    (step p s).total_owner_cash_out = s.total_owner_cash_out + owner_monthly_cost p s := rfl

theorem step_total_renter_cash_out (p : SimParams) (s : LoopState) :
    (step p s).total_renter_cash_out = s.total_renter_cash_out + s.market_rent := rfl

theorem step_owner_side_invest (p : SimParams) (s : LoopState) :
    (step p s).owner_side_invest =
      if p.invest_monthly_diffs ∧ ¬ owner_monthly_cost p s - s.market_rent > 0 then
        s.owner_side_invest * (1 + f_inv p) + -(owner_monthly_cost p s - s.market_rent)
      else s.owner_side_invest * (1 + f_inv p) := rfl

theorem step_renter_invest (p : SimParams) (s : LoopState) :
    (step p s).renter_invest =
      if p.invest_monthly_diffs ∧ owner_monthly_cost p s - s.market_rent > 0 then
        s.renter_invest * (1 + f_inv p) + (owner_monthly_cost p s - s.market_rent)
      else s.renter_invest * (1 + f_inv p) := rfl

theorem step_balance_nonneg (p : SimParams) (s : LoopState) :
    0 ≤ (step p s).remaining_balance := le_max_right _ _

theorem step_balance_le (p : SimParams) (s : LoopState) (h : 0 ≤ s.remaining_balance) :
    (step p s).remaining_balance ≤ s.remaining_balance := by
  rw [step_remaining_balance]
  have h1 := le_max_right (mort_payment p - s.remaining_balance * r_m p) (0 : ℝ)
  exact max_le (by linarith) h

theorem loopIter_balance_nonneg (p : SimParams) (h : 0 ≤ loan_principal p) :
    ∀ k, 0 ≤ (loopIter p k).remaining_balance
  | 0 => h
  | _ + 1 => step_balance_nonneg p _

theorem step_balance_zero (p : SimParams) (s : LoopState) (h : s.remaining_balance = 0) :
    (step p s).remaining_balance = 0 := by
  rw [step_remaining_balance, h]
  have h1 := le_max_right (mort_payment p - 0 * r_m p) (0 : ℝ)
  exact max_eq_right (by linarith)

theorem loopIter_balance_zero_after (p : SimParams) (k : ℕ)
    (h : (loopIter p k).remaining_balance = 0) :
    ∀ j, (loopIter p (k + j)).remaining_balance = 0
  | 0 => h
  | j + 1 => step_balance_zero p _ (loopIter_balance_zero_after p k h j)

/-- Claim C1: each simulation step charges a government levy equal to the
current market rent times the full annual levy fraction (no division by 12),
and the owner's monthly cost is mortgage payment + management fee + levy,
the management fee being the current property value times the annual fee
fraction divided by 12; that owner cost is exactly what the step adds to the
owner cash-out accumulator. -/
theorem c1_levy_monthly_and_owner_cost (p : SimParams) (s : LoopState) :
    gov_rates p s = s.market_rent * p.gov_rate_pct_of_rent_annual ∧
    mgmt_fee p s = s.property_value * (p.mgmt_fee_pct_of_value_annual / 12) ∧
    owner_monthly_cost p s = mort_payment p + mgmt_fee p s + gov_rates p s ∧
    (step p s).total_owner_cash_out = s.total_owner_cash_out + owner_monthly_cost p s :=
  ⟨rfl, by rw [mgmt_fee]; ring, rfl, rfl⟩

/-- Instantiation of `c1_levy_monthly_and_owner_cost` at a concrete scenario. -/
theorem c1_witness :
    gov_rates pFlatDiff sProbe = sProbe.market_rent * pFlatDiff.gov_rate_pct_of_rent_annual ∧
    mgmt_fee pFlatDiff sProbe = sProbe.property_value * (pFlatDiff.mgmt_fee_pct_of_value_annual / 12) ∧
    owner_monthly_cost pFlatDiff sProbe =
      mort_payment pFlatDiff + mgmt_fee pFlatDiff sProbe + gov_rates pFlatDiff sProbe ∧
    (step pFlatDiff sProbe).total_owner_cash_out =
      sProbe.total_owner_cash_out + owner_monthly_cost pFlatDiff sProbe :=
  c1_levy_monthly_and_owner_cost pFlatDiff sProbe

/-- Claim C3: at settlement the realized owner equity is
max(final value − final value × sell fraction − remaining balance, 0), hence
never negative, and buy net worth is that equity plus the final owner-side
investment balance with no further compounding. -/
theorem c3_settlement_equity_floor (p : SimParams) :
    (simulate_rent_vs_buy p).owner_equity_realized =
      max ((finalState p).property_value
        - (finalState p).property_value * p.sell_closing_cost_pct
        - (finalState p).remaining_balance) 0 ∧
    0 ≤ (simulate_rent_vs_buy p).owner_equity_realized ∧
    (simulate_rent_vs_buy p).buy_net_worth =
      (simulate_rent_vs_buy p).owner_equity_realized
        + (simulate_rent_vs_buy p).owner_side_invest_end :=
  ⟨rfl, le_max_right _ _, rfl⟩

/-- Instantiation of `c3_settlement_equity_floor` at a concrete scenario. -/
theorem c3_witness :
    (simulate_rent_vs_buy pFlat).owner_equity_realized =
      max ((finalState pFlat).property_value
        - (finalState pFlat).property_value * pFlat.sell_closing_cost_pct
        - (finalState pFlat).remaining_balance) 0 ∧
    0 ≤ (simulate_rent_vs_buy pFlat).owner_equity_realized ∧
    (simulate_rent_vs_buy pFlat).buy_net_worth =
      (simulate_rent_vs_buy pFlat).owner_equity_realized
        + (simulate_rent_vs_buy pFlat).owner_side_invest_end :=
  c3_settlement_equity_floor pFlat

/-- Claim C6: with differential investing enabled, each step first compounds
both side balances by (1 + f_inv) and then credits exactly one side: the
renter side receives the (positive) difference when renting is cheaper, and
otherwise the owner side receives the negated difference (a no-op at zero). -/
theorem c6_single_side_contribution (p : SimParams) (s : LoopState)
    (hflag : p.invest_monthly_diffs = true) :
    (0 < owner_monthly_cost p s - s.market_rent →
      (step p s).renter_invest =
        s.renter_invest * (1 + f_inv p) + (owner_monthly_cost p s - s.market_rent) ∧
      (step p s).owner_side_invest = s.owner_side_invest * (1 + f_inv p)) ∧
    (owner_monthly_cost p s - s.market_rent ≤ 0 →
      (step p s).owner_side_invest =
        s.owner_side_invest * (1 + f_inv p) + -(owner_monthly_cost p s - s.market_rent) ∧
      (step p s).renter_invest = s.renter_invest * (1 + f_inv p)) := by
  constructor
  · intro h
    constructor
    · rw [step_renter_invest, if_pos ⟨by simp [hflag], h⟩]
    · rw [step_owner_side_invest, if_neg fun hc => hc.2 h]
  · intro h
    constructor
    · rw [step_owner_side_invest, if_pos ⟨by simp [hflag], not_lt.mpr h⟩]
    · rw [step_renter_invest, if_neg fun hc => (not_lt.mpr h) hc.2]

/-- Instantiation of `c6_single_side_contribution`: in the flat scenario the
owner cost (70/12) is below the rent (10), so the owner side gets the credit. -/
theorem c6_witness :
    (step pFlatDiff sProbe).owner_side_invest =
      sProbe.owner_side_invest * (1 + f_inv pFlatDiff)
        + -(owner_monthly_cost pFlatDiff sProbe - sProbe.market_rent) ∧
    (step pFlatDiff sProbe).renter_invest =
      sProbe.renter_invest * (1 + f_inv pFlatDiff) :=
  (c6_single_side_contribution pFlatDiff sProbe rfl).2 (by
    norm_num [owner_monthly_cost, mgmt_fee, gov_rates, mort_payment, npf_pmt, r_m, n_m,
      loan_principal, house_price, down_payment, pFlatDiff, pFlat, sProbe, Real.one_rpow])

/-- Claim C2 counterexample: with a down-payment fraction of 2 the loan
principal is -100, and the first step raises the balance from -100 to 0, so
the balance is not non-increasing for every parameter set. -/
theorem c2_counterexample :
    ¬ ((loopIter pC2bad 1).remaining_balance ≤ (loopIter pC2bad 0).remaining_balance) := by
  have hrm : r_m pC2bad = 0 := by
    rw [r_m]; norm_num [pC2bad, pFlat, Real.one_rpow]
  have h0 : (loopIter pC2bad 0).remaining_balance = -100 := by
    show (initState pC2bad).remaining_balance = -100
    norm_num [initState, loan_principal, house_price, down_payment, pC2bad, pFlat]
  have hmp : mort_payment pC2bad = -(100 / 12) := by
    rw [mort_payment]; unfold npf_pmt
    rw [if_pos hrm]
    norm_num [n_m, loan_principal, house_price, down_payment, pC2bad, pFlat]
  have h1 : (loopIter pC2bad 1).remaining_balance = 0 := by
    show (step pC2bad (loopIter pC2bad 0)).remaining_balance = 0
    rw [step_remaining_balance, h0, hrm, hmp]
    norm_num [max_def]
  rw [h0, h1]
  norm_num

/-- Claim C2 as amended: for every parameter set and every step, the balance
is updated to max(balance − max(payment − balance·r_m, 0), 0) and the
post-step balance is non-negative; the balance is additionally non-increasing
step-over-step provided the loan principal is non-negative (the down-payment
fraction does not exceed 1). -/
theorem c2_balance_floor_monotone (p : SimParams) (k : ℕ) :
    (loopIter p (k + 1)).remaining_balance =
      max ((loopIter p k).remaining_balance
        - max (mort_payment p - (loopIter p k).remaining_balance * r_m p) 0) 0 ∧
    0 ≤ (loopIter p (k + 1)).remaining_balance ∧
    (0 ≤ loan_principal p →
      (loopIter p (k + 1)).remaining_balance ≤ (loopIter p k).remaining_balance) :=
  ⟨step_remaining_balance p _, step_balance_nonneg p _,
    fun h => step_balance_le p _ (loopIter_balance_nonneg p h k)⟩

/-- Instantiation of `c2_balance_floor_monotone` at the flat scenario, step 1,
with the non-negative-principal proviso discharged concretely. -/
theorem c2_witness :
    (loopIter pFlat 1).remaining_balance =
      max ((loopIter pFlat 0).remaining_balance
        - max (mort_payment pFlat - (loopIter pFlat 0).remaining_balance * r_m pFlat) 0) 0 ∧
    0 ≤ (loopIter pFlat 1).remaining_balance ∧
    (loopIter pFlat 1).remaining_balance ≤ (loopIter pFlat 0).remaining_balance :=
  ⟨(c2_balance_floor_monotone pFlat 0).1, (c2_balance_floor_monotone pFlat 0).2.1,
    (c2_balance_floor_monotone pFlat 0).2.2
      (by norm_num [loan_principal, house_price, down_payment, pFlat])⟩

/-- Claim C4: with a zero annual mortgage rate the monthly rate is exactly 0,
the payment degrades to loan_principal / (mortgage_years * 12) instead of
dividing by zero, and when the horizon is at least the mortgage term the
returned remaining balance is exactly 0. -/
theorem c4_zero_rate_straight_line (p : SimParams)
    (hr0 : p.mortgage_rate_annual = 0) (hy : 0 < p.mortgage_years)
    (hh : p.mortgage_years ≤ p.horizon_years) :
    mort_payment p = loan_principal p / ((p.mortgage_years : ℝ) * 12) ∧
    (simulate_rent_vs_buy p).remaining_mortgage_balance = 0 := by
  have hrm : r_m p = 0 := by rw [r_m, hr0]; norm_num [Real.one_rpow]
  have hNZ : (0 : ℤ) < n_m p := by
    rw [n_m]; exact mul_pos hy (by norm_num)
  have hNcastZ : (((n_m p).toNat : ℤ)) = n_m p := Int.toNat_of_nonneg hNZ.le
  have hNpos : 0 < (n_m p).toNat := by
    by_contra hcon
    rw [Nat.pos_iff_ne_zero] at hcon
    push_neg at hcon
    rw [hcon] at hNcastZ
    omega
  have hNcast : (((n_m p).toNat : ℕ) : ℝ) = (p.mortgage_years : ℝ) * 12 := by
    have h2 : ((((n_m p).toNat : ℤ)) : ℝ) = ((p.mortgage_years * 12 : ℤ) : ℝ) := by
      rw [hNcastZ, n_m]
    push_cast at h2
    exact h2
  have hpay : mort_payment p = loan_principal p / ((p.mortgage_years : ℝ) * 12) := by
    rw [mort_payment]; unfold npf_pmt
    rw [if_pos hrm, n_m]
    push_cast
    ring
  refine ⟨hpay, ?_⟩
  have hpayN : mort_payment p = loan_principal p / (((n_m p).toNat : ℕ) : ℝ) := by
    rw [hpay, hNcast]
  have hNR : (0 : ℝ) < (((n_m p).toNat : ℕ) : ℝ) := by exact_mod_cast hNpos
  have hbalN : (loopIter p (n_m p).toNat).remaining_balance = 0 := by
    rcases le_or_lt 0 (loan_principal p) with hP | hP
    · have hpaypos : 0 ≤ mort_payment p := by
        rw [hpayN]; positivity
      have key : ∀ k, k ≤ (n_m p).toNat → (loopIter p k).remaining_balance
          = loan_principal p - k * (loan_principal p / (((n_m p).toNat : ℕ) : ℝ)) := by
        intro k
        induction k with
        | zero => intro _; simp [loopIter, initState]
        | succ k ih =>
          intro hk
          have hbk := ih (Nat.le_of_succ_le hk)
          have hdiv : 0 ≤ loan_principal p / (((n_m p).toNat : ℕ) : ℝ) := by positivity
          have hkk : ((k : ℝ) + 1) ≤ (((n_m p).toNat : ℕ) : ℝ) := by exact_mod_cast hk
          have hmul := mul_le_mul_of_nonneg_right hkk hdiv
          have hNP : ((((n_m p).toNat : ℕ) : ℝ)) * (loan_principal p / (((n_m p).toNat : ℕ) : ℝ))
              = loan_principal p := by
            field_simp
          have hnext : 0 ≤ loan_principal p
              - ((k : ℝ) + 1) * (loan_principal p / (((n_m p).toNat : ℕ) : ℝ)) := by
            linarith
          have hstep : (loopIter p (k + 1)).remaining_balance
              = max ((loopIter p k).remaining_balance
                - max (mort_payment p - (loopIter p k).remaining_balance * r_m p) 0) 0 :=
            step_remaining_balance p _
          rw [hstep, hbk, hrm, mul_zero, sub_zero, max_eq_left hpaypos, hpayN,
            max_eq_left (by linarith)]
          push_cast
          ring
      have hlast := key (n_m p).toNat le_rfl
      rw [hlast]
      field_simp
    · have hpayneg : mort_payment p ≤ 0 := by
        rw [hpayN]
        exact div_nonpos_iff.mpr (Or.inr ⟨hP.le, by positivity⟩)
      have hb1 : (loopIter p 1).remaining_balance = 0 := by
        show (step p (loopIter p 0)).remaining_balance = 0
        have hb0 : (loopIter p 0).remaining_balance = loan_principal p := rfl
        rw [step_remaining_balance, hb0, hrm, mul_zero, sub_zero,
          max_eq_right hpayneg, sub_zero]
        exact max_eq_right hP.le
      have hrest := loopIter_balance_zero_after p 1 hb1 ((n_m p).toNat - 1)
      rwa [Nat.add_sub_cancel' hNpos] at hrest
  have hMN : (n_m p).toNat ≤ (months p).toNat := by
    apply Int.toNat_le_toNat
    rw [n_m, months]
    exact mul_le_mul_of_nonneg_right hh (by norm_num)
  show (finalState p).remaining_balance = 0
  rw [finalState]
  have hrest := loopIter_balance_zero_after p (n_m p).toNat hbalN ((months p).toNat - (n_m p).toNat)
  rwa [Nat.add_sub_cancel' hMN] at hrest

/-- Instantiation of `c4_zero_rate_straight_line` at the flat scenario
(zero mortgage rate, 1-year term, 1-year horizon). -/
theorem c4_witness :
    mort_payment pFlat = loan_principal pFlat / ((pFlat.mortgage_years : ℝ) * 12) ∧
    (simulate_rent_vs_buy pFlat).remaining_mortgage_balance = 0 :=
  c4_zero_rate_straight_line pFlat rfl (by norm_num [pFlat]) (by norm_num [pFlat])

theorem loopIter_invest_flag_false (p : SimParams) (hflag : p.invest_monthly_diffs = false) :
    ∀ k, (loopIter p k).renter_invest
        = (down_payment p + buy_closing_cost p) * (1 + f_inv p) ^ k ∧
      (loopIter p k).owner_side_invest = 0
  | 0 => by simp [loopIter, initState]
  | k + 1 => by
    have ih := loopIter_invest_flag_false p hflag k
    constructor
    · rw [show loopIter p (k + 1) = step p (loopIter p k) from rfl, step_renter_invest,
        if_neg (fun hc => by simp [hflag] at hc), ih.1]
      ring
    · rw [show loopIter p (k + 1) = step p (loopIter p k) from rfl, step_owner_side_invest,
        if_neg (fun hc => by simp [hflag] at hc), ih.2]
      ring

/-- Claim C5: with differential investing disabled neither side balance ever
receives a contribution: the renter side ends at
(down payment + buy closing cost) · (1 + f_inv)^months and the owner side at 0. -/
theorem c5_flag_off_pure_compounding (p : SimParams)
    (hflag : p.invest_monthly_diffs = false) (m : ℕ) (hm : (m : ℤ) = p.horizon_years * 12) :
    (simulate_rent_vs_buy p).renter_invest_end
      = (down_payment p + buy_closing_cost p) * (1 + f_inv p) ^ m ∧
    (simulate_rent_vs_buy p).owner_side_invest_end = 0 := by
  have hm2 : (months p).toNat = m := by
    rw [months]; omega
  constructor
  · show (finalState p).renter_invest = _
    rw [finalState, hm2]
    exact (loopIter_invest_flag_false p hflag m).1
  · show (finalState p).owner_side_invest = 0
    rw [finalState, hm2]
    exact (loopIter_invest_flag_false p hflag m).2

/-- Instantiation of `c5_flag_off_pure_compounding` at the flat scenario. -/
theorem c5_witness :
    (simulate_rent_vs_buy pFlat).renter_invest_end
      = (down_payment pFlat + buy_closing_cost pFlat) * (1 + f_inv pFlat) ^ 12 ∧
    (simulate_rent_vs_buy pFlat).owner_side_invest_end = 0 :=
  c5_flag_off_pure_compounding pFlat rfl 12 (by norm_num [pFlat])

theorem one_le_one_add_f_inv (p : SimParams) (h : 0 ≤ p.investment_return_annual) :
    1 ≤ 1 + f_inv p := by
  have h1 : (1 : ℝ) ≤ 1 + p.investment_return_annual := by linarith
  have h3 : (1 : ℝ) ^ ((1 : ℝ) / 12) ≤ (1 + p.investment_return_annual) ^ ((1 : ℝ) / 12) :=
    Real.rpow_le_rpow zero_le_one h1 (by norm_num)
  rw [f_inv]
  rw [Real.one_rpow] at h3
  linarith

theorem step_renter_mono (p : SimParams) (s : LoopState) (hf : 1 ≤ 1 + f_inv p)
    (hr : 0 ≤ s.renter_invest) : s.renter_invest ≤ (step p s).renter_invest := by
  rw [step_renter_invest]
  have h1 : s.renter_invest ≤ s.renter_invest * (1 + f_inv p) := le_mul_of_one_le_right hr hf
  split_ifs with hc
  · have h2 : 0 < owner_monthly_cost p s - s.market_rent := hc.2
    linarith
  · exact h1

theorem step_owner_nonneg (p : SimParams) (s : LoopState) (hf : 1 ≤ 1 + f_inv p)
    (ho : 0 ≤ s.owner_side_invest) : 0 ≤ (step p s).owner_side_invest := by
  rw [step_owner_side_invest]
  have h1 : 0 ≤ s.owner_side_invest * (1 + f_inv p) :=
    mul_nonneg ho (le_trans zero_le_one hf)
  split_ifs with hc
  · have h2 := not_lt.mp hc.2
    linarith
  · exact h1

/-- Claim C10: with non-negative investment return, sizes, prices and the
down-payment and buy-closing fractions, both side balances stay non-negative
at every iteration, the renter-side balance is non-decreasing step-over-step,
and the returned rent net worth is at least the upfront seed. -/
theorem c10_renter_nonneg_monotone (p : SimParams)
    (hinv : 0 ≤ p.investment_return_annual) (hs : 0 ≤ p.house_size_sqft)
    (hpp : 0 ≤ p.house_price_per_sqft) (hdp : 0 ≤ p.down_payment_pct)
    (hbcc : 0 ≤ p.buy_closing_cost_pct) :
    (∀ k, 0 ≤ (loopIter p k).owner_side_invest ∧ 0 ≤ (loopIter p k).renter_invest ∧
      (loopIter p k).renter_invest ≤ (loopIter p (k + 1)).renter_invest) ∧
    down_payment p + buy_closing_cost p ≤ (simulate_rent_vs_buy p).rent_net_worth := by
  have hf := one_le_one_add_f_inv p hinv
  have hhp : 0 ≤ house_price p := mul_nonneg hs hpp
  have hseed : 0 ≤ down_payment p + buy_closing_cost p :=
    add_nonneg (mul_nonneg hhp hdp) (mul_nonneg hhp hbcc)
  have base : ∀ k, 0 ≤ (loopIter p k).owner_side_invest ∧ 0 ≤ (loopIter p k).renter_invest := by
    intro k
    induction k with
    | zero => exact ⟨le_refl 0, hseed⟩
    | succ k ih =>
      exact ⟨step_owner_nonneg p _ hf ih.1, le_trans ih.2 (step_renter_mono p _ hf ih.2)⟩
  have grow : ∀ k, down_payment p + buy_closing_cost p ≤ (loopIter p k).renter_invest := by
    intro k
    induction k with
    | zero => exact le_refl _
    | succ k ih => exact le_trans ih (step_renter_mono p _ hf (base k).2)
  exact ⟨fun k => ⟨(base k).1, (base k).2, step_renter_mono p _ hf (base k).2⟩,
    grow (months p).toNat⟩

/-- Instantiation of `c10_renter_nonneg_monotone` at the flat scenario. -/
theorem c10_witness :
    (0 ≤ (loopIter pFlat 0).owner_side_invest ∧ 0 ≤ (loopIter pFlat 0).renter_invest ∧
      (loopIter pFlat 0).renter_invest ≤ (loopIter pFlat 1).renter_invest) ∧
    down_payment pFlat + buy_closing_cost pFlat ≤ (simulate_rent_vs_buy pFlat).rent_net_worth := by
  have h := c10_renter_nonneg_monotone pFlat (by norm_num [pFlat]) (by norm_num [pFlat])
    (by norm_num [pFlat]) (by norm_num [pFlat]) (by norm_num [pFlat])
  exact ⟨h.1 0, h.2⟩

/-- Claim C8 counterexample: the zero-horizon parameter set violates the
spec's validity condition, yet `simulate_rent_vs_buy` does not reject it - it
runs to completion (an empty loop) and returns a normal result record whose
rent net worth is just the upfront seed 3,500,000. -/
theorem c8_counterexample :
    ¬ specValidParams pC8bad ∧
    (simulate_rent_vs_buy pC8bad).months = 0 ∧
    (simulate_rent_vs_buy pC8bad).rent_net_worth = 3500000 := by
  refine ⟨?_, ?_, ?_⟩
  · intro h
    have h1 := h.2.2.2.1
    norm_num [pC8bad, pRef] at h1
  · show months pC8bad = 0
    norm_num [months, pC8bad, pRef]
  · show (finalState pC8bad).renter_invest = 3500000
    have h0 : (months pC8bad).toNat = 0 := by
      norm_num [months, pC8bad, pRef]
    rw [finalState, h0]
    show (initState pC8bad).renter_invest = 3500000
    norm_num [initState, down_payment, buy_closing_cost, house_price, pC8bad, pRef]

/-- Claim C8 as amended: `simulate_rent_vs_buy` performs no parameter
validation - non-positive size, price, horizon or term are not rejected and no
invalid-parameter error is ever surfaced.  For every parameter set whose
annual rates are at least -1 (so the monthly power factors of lines 67 and
74-76 are real-valued, the domain this real-number embedding covers), it runs
to completion and returns a complete result with the months field equal to
horizon_years * 12; a non-positive horizon simply runs the loop zero times,
leaving the rent net worth at the upfront seed.  (For an annual rate below -1
the Python source produces a complex power at line 67 and raises TypeError at
line 71 - an unvalidated crash, not the surfaced rejection the spec claims.) -/
theorem c8_no_validation_total (p : SimParams)
    (_hmr : -1 ≤ p.mortgage_rate_annual) (_hir : -1 ≤ p.investment_return_annual)
    (_hha : -1 ≤ p.house_appreciation_annual) (_hri : -1 ≤ p.rent_increase_annual) :
    (simulate_rent_vs_buy p).months = p.horizon_years * 12 ∧
    (p.horizon_years ≤ 0 →
      (simulate_rent_vs_buy p).rent_net_worth = down_payment p + buy_closing_cost p) := by
  refine ⟨rfl, fun h => ?_⟩
  have h0 : (months p).toNat = 0 := by
    rw [months]; omega
  show (finalState p).renter_invest = _
  rw [finalState, h0]
  rfl

/-- Instantiation of `c8_no_validation_total` at the zero-horizon scenario. -/
theorem c8_witness :
    (simulate_rent_vs_buy pC8bad).months = pC8bad.horizon_years * 12 ∧
    (simulate_rent_vs_buy pC8bad).rent_net_worth = down_payment pC8bad + buy_closing_cost pC8bad := by
  have h := c8_no_validation_total pC8bad (by norm_num [pC8bad, pRef])
    (by norm_num [pC8bad, pRef]) (by norm_num [pC8bad, pRef]) (by norm_num [pC8bad, pRef])
  exact ⟨h.1, h.2 (by norm_num [pC8bad, pRef])⟩

theorem pC9bad_loop (k : ℕ) :
    (loopIter pC9bad k).property_value = 100 ∧ (loopIter pC9bad k).market_rent = 10 ∧
    (loopIter pC9bad k).remaining_balance = 0 ∧
    (loopIter pC9bad k).owner_side_invest = 10 * k := by
  have hrm : r_m pC9bad = 0 := by
    rw [r_m]; norm_num [pC9bad, pFlat, Real.one_rpow]
  have hmp : mort_payment pC9bad = 0 := by
    rw [mort_payment]; unfold npf_pmt
    rw [if_pos hrm]
    norm_num [loan_principal, house_price, down_payment, pC9bad, pFlat]
  have hfh : f_house pC9bad = 1 := by
    rw [f_house]; norm_num [pC9bad, pFlat, Real.one_rpow]
  have hfr : f_rent pC9bad = 1 := by
    rw [f_rent]; norm_num [pC9bad, pFlat, Real.one_rpow]
  have hfi : f_inv pC9bad = 0 := by
    rw [f_inv]; norm_num [pC9bad, pFlat, Real.one_rpow]
  induction k with
  | zero =>
    refine ⟨?_, ?_, ?_, ?_⟩ <;>
      norm_num [loopIter, initState, house_price, monthly_rent, loan_principal,
        down_payment, pC9bad, pFlat]
  | succ k ih =>
    have hcost : owner_monthly_cost pC9bad (loopIter pC9bad k) = 0 := by
      rw [owner_monthly_cost, mgmt_fee, gov_rates, hmp, ih.1, ih.2.1]
      norm_num [pC9bad, pFlat]
    refine ⟨?_, ?_, ?_, ?_⟩
    · rw [show loopIter pC9bad (k + 1) = step pC9bad (loopIter pC9bad k) from rfl,
        step_property_value, ih.1, hfh, mul_one]
    · rw [show loopIter pC9bad (k + 1) = step pC9bad (loopIter pC9bad k) from rfl,
        step_market_rent, ih.2.1, hfr, mul_one]
    · exact step_balance_zero pC9bad _ ih.2.2.1
    · rw [show loopIter pC9bad (k + 1) = step pC9bad (loopIter pC9bad k) from rfl,
        step_owner_side_invest,
        if_pos ⟨rfl, by rw [hcost, ih.2.1]; norm_num⟩,
        ih.2.2.2, hfi, hcost, ih.2.1]
      push_cast
      ring

/-- Claim C9 counterexample: zero investment return, zero appreciation, zero
rent inflation and a 100% down payment, but with differential investing
enabled the owner side accumulates the rent differential (10 per month for 12
months), so buy net worth is 220, not house_price × (1 − sell fraction) = 100. -/
theorem c9_counterexample :
    (simulate_rent_vs_buy pC9bad).buy_net_worth
      ≠ house_price pC9bad * (1 - pC9bad.sell_closing_cost_pct) := by
  have hm : (months pC9bad).toNat = 12 := by
    norm_num [months, pC9bad, pFlat]
    rfl
  have hfin := pC9bad_loop 12
  have hbuy : (simulate_rent_vs_buy pC9bad).buy_net_worth = 220 := by
    show max ((finalState pC9bad).property_value
      - (finalState pC9bad).property_value * pC9bad.sell_closing_cost_pct
      - (finalState pC9bad).remaining_balance) 0 + (finalState pC9bad).owner_side_invest = 220
    rw [finalState, hm, hfin.1, hfin.2.2.1, hfin.2.2.2]
    norm_num [pC9bad, pFlat, max_def]
  rw [hbuy]
  norm_num [house_price, pC9bad, pFlat]

/-- Claim C9 as amended: with zero investment return, zero appreciation, zero
rent inflation, a 100% down payment AND differential investing disabled, buy
net worth at the horizon equals house_price × (1 − sell_closing_cost_pct)
exactly, whenever that net sale value is non-negative (automatic on the
spec's input domain of positive sizes and prices with a sell fraction ≤ 1;
otherwise the settlement floor of line 137 clamps the result to 0 instead). -/
theorem c9_full_downpayment_flag_off (p : SimParams)
    (_hinv : p.investment_return_annual = 0) (happ : p.house_appreciation_annual = 0)
    (_hrent : p.rent_increase_annual = 0) (hdp : p.down_payment_pct = 1)
    (hflag : p.invest_monthly_diffs = false)
    (hnn : 0 ≤ house_price p * (1 - p.sell_closing_cost_pct)) :
    (simulate_rent_vs_buy p).buy_net_worth = house_price p * (1 - p.sell_closing_cost_pct) := by
  have hloan : loan_principal p = 0 := by
    rw [loan_principal, down_payment, hdp]; ring
  have hfh : f_house p = 1 := by
    rw [f_house, happ]; norm_num [Real.one_rpow]
  have hbal : ∀ k, (loopIter p k).remaining_balance = 0 := by
    intro k
    have h0 : (loopIter p 0).remaining_balance = 0 := hloan
    simpa using loopIter_balance_zero_after p 0 h0 k
  have hprop : ∀ k, (loopIter p k).property_value = house_price p := by
    intro k
    induction k with
    | zero => rfl
    | succ k ih =>
      rw [show loopIter p (k + 1) = step p (loopIter p k) from rfl,
        step_property_value, ih, hfh, mul_one]
  have howner : ∀ k, (loopIter p k).owner_side_invest = 0 :=
    fun k => (loopIter_invest_flag_false p hflag k).2
  show max ((finalState p).property_value
    - (finalState p).property_value * p.sell_closing_cost_pct
    - (finalState p).remaining_balance) 0 + (finalState p).owner_side_invest
      = house_price p * (1 - p.sell_closing_cost_pct)
  rw [finalState, hprop, hbal, howner, sub_zero, add_zero,
    max_eq_left (by nlinarith [hnn])]
  ring

/-- Instantiation of `c9_full_downpayment_flag_off` at the flat 100%-down
scenario with differential investing disabled. -/
theorem c9_witness :
    (simulate_rent_vs_buy pC9w).buy_net_worth
      = house_price pC9w * (1 - pC9w.sell_closing_cost_pct) :=
  c9_full_downpayment_flag_off pC9w rfl rfl rfl rfl rfl
    (by norm_num [house_price, pC9w, pFlat])

theorem le_rpow_twelfth {a b : ℝ} (ha : 0 ≤ a) (h : a ^ (12 : ℕ) ≤ b) :
    a ≤ b ^ ((1 : ℝ) / 12) := by
  have h2 : (a ^ (12 : ℕ) : ℝ) ^ ((1 : ℝ) / 12) ≤ b ^ ((1 : ℝ) / 12) :=
    Real.rpow_le_rpow (pow_nonneg ha 12) h (by norm_num)
  have h3 : (a ^ (12 : ℕ) : ℝ) ^ ((1 : ℝ) / 12) = a := by
    rw [← Real.rpow_natCast a 12, ← Real.rpow_mul ha]
    norm_num
  rwa [h3] at h2

theorem rpow_twelfth_le {a b : ℝ} (ha : 0 ≤ a) (hb : 0 ≤ b) (h : b ≤ a ^ (12 : ℕ)) :
    b ^ ((1 : ℝ) / 12) ≤ a := by
  have h2 : b ^ ((1 : ℝ) / 12) ≤ (a ^ (12 : ℕ) : ℝ) ^ ((1 : ℝ) / 12) :=
    Real.rpow_le_rpow hb h (by norm_num)
  have h3 : (a ^ (12 : ℕ) : ℝ) ^ ((1 : ℝ) / 12) = a := by
    rw [← Real.rpow_natCast a 12, ← Real.rpow_mul ha]
    norm_num
  rwa [h3] at h2

/-- Rational bracketing of the reference-scenario mortgage payment: with
monthly rate 1.035^(1/12) − 1 and 360 payments on a 7,000,000 loan the level
payment lies between 31218 and 31220 (it is ~31218.92, not ~31435). -/
theorem mort_payment_pRef_bounds :
    31218 ≤ mort_payment pRef ∧ mort_payment pRef ≤ 31220 := by
  have hlb : (1002870896 / 1000000000 : ℝ) ≤ ((207 : ℝ) / 200) ^ ((1 : ℝ) / 12) :=
    le_rpow_twelfth (by norm_num) (by norm_num)
  have hub : ((207 : ℝ) / 200) ^ ((1 : ℝ) / 12) ≤ (10028709 / 10000000 : ℝ) :=
    rpow_twelfth_le (by norm_num) (by norm_num) (by norm_num)
  have hygt1 : (1 : ℝ) < ((207 : ℝ) / 200) ^ ((1 : ℝ) / 12) :=
    lt_of_lt_of_le (by norm_num) hlb
  have hbase : (1 : ℝ) + pRef.mortgage_rate_annual = 207 / 200 := by
    norm_num [pRef]
  have hr : r_m pRef = ((207 : ℝ) / 200) ^ ((1 : ℝ) / 12) - 1 := by
    rw [r_m, hbase]
  have hrne : r_m pRef ≠ 0 := by
    rw [hr]; intro hc; nlinarith
  have hn : n_m pRef = (360 : ℤ) := by norm_num [n_m, pRef]
  have hloan : loan_principal pRef = 7000000 := by
    norm_num [loan_principal, house_price, down_payment, pRef]
  have hone : (1 : ℝ) + r_m pRef = ((207 : ℝ) / 200) ^ ((1 : ℝ) / 12) := by
    rw [hr]; ring
  have hzpow : (1 + r_m pRef) ^ (n_m pRef) = ((207 : ℝ) / 200) ^ (30 : ℕ) := by
    rw [hn, hone, show (360 : ℤ) = ((360 : ℕ) : ℤ) by rfl, zpow_natCast]
    rw [← Real.rpow_natCast (((207 : ℝ) / 200) ^ ((1 : ℝ) / 12)) 360,
      ← Real.rpow_mul (by norm_num : (0 : ℝ) ≤ 207 / 200)]
    rw [show (1 : ℝ) / 12 * ((360 : ℕ) : ℝ) = ((30 : ℕ) : ℝ) by norm_num]
    rw [Real.rpow_natCast]
  have hpay : mort_payment pRef = (((207 : ℝ) / 200) ^ ((1 : ℝ) / 12) - 1)
      * (7000000 * (((207 : ℝ) / 200) ^ (30 : ℕ)) / (((207 : ℝ) / 200) ^ (30 : ℕ) - 1)) := by
    rw [mort_payment]; unfold npf_pmt
    rw [if_neg hrne, hzpow, hloan, hr, neg_neg]
    ring
  have hC : (0 : ℝ) ≤ 7000000 * (((207 : ℝ) / 200) ^ (30 : ℕ))
      / (((207 : ℝ) / 200) ^ (30 : ℕ) - 1) := by
    norm_num
  constructor
  · rw [hpay]
    have hmono := mul_le_mul_of_nonneg_right
      (by linarith : (1002870896 / 1000000000 : ℝ) - 1 ≤ ((207 : ℝ) / 200) ^ ((1 : ℝ) / 12) - 1) hC
    have hnum : (31218 : ℝ) ≤ ((1002870896 / 1000000000 : ℝ) - 1)
        * (7000000 * (((207 : ℝ) / 200) ^ (30 : ℕ)) / (((207 : ℝ) / 200) ^ (30 : ℕ) - 1)) := by
      norm_num
    linarith
  · rw [hpay]
    have hmono := mul_le_mul_of_nonneg_right
      (by linarith : ((207 : ℝ) / 200) ^ ((1 : ℝ) / 12) - 1 ≤ (10028709 / 10000000 : ℝ) - 1) hC
    have hnum : ((10028709 / 10000000 : ℝ) - 1)
        * (7000000 * (((207 : ℝ) / 200) ^ (30 : ℕ)) / (((207 : ℝ) / 200) ^ (30 : ℕ) - 1))
        ≤ 31220 := by
      norm_num
    linarith

/-- Claim C7 counterexample: in the reference scenario the returned monthly
mortgage payment is ~31218.92 (it lies in [31218, 31220]), which is not within
1 unit of 31435. -/
theorem c7_counterexample :
    ¬ (|(simulate_rent_vs_buy pRef).monthly_mortgage_payment - 31435| ≤ 1) := by
  have hb := mort_payment_pRef_bounds
  have he : (simulate_rent_vs_buy pRef).monthly_mortgage_payment = mort_payment pRef := rfl
  rw [he, abs_le]
  intro hc
  linarith [hb.2, hc.1]

/-- Claim C7 as amended: the reference scenario yields house price 10,000,000,
initial monthly rent 25,000, loan principal 7,000,000, and a constant monthly
mortgage payment (at monthly rate 1.035^(1/12) − 1 over 360 payments) within
1 unit of 31,219 — not of 31,435. -/
theorem c7_reference_scenario :
    house_price pRef = 10000000 ∧ monthly_rent pRef = 25000 ∧
    loan_principal pRef = 7000000 ∧
    |(simulate_rent_vs_buy pRef).monthly_mortgage_payment - 31219| ≤ 1 := by
  have hb := mort_payment_pRef_bounds
  have he : (simulate_rent_vs_buy pRef).monthly_mortgage_payment = mort_payment pRef := rfl
  refine ⟨by norm_num [house_price, pRef], by norm_num [monthly_rent, pRef],
    by norm_num [loan_principal, house_price, down_payment, pRef], ?_⟩
  rw [he, abs_le]
  constructor <;> linarith [hb.1, hb.2]

end RentVsBuy
